import Mathlib

/-!
Verification of the kid-timer synchronization engine.

The definitions below are a shallow embedding of the redux-zero store of the
repository: the timer state record (src/store/index.ts), the transition
functions of src/store/actions.ts (startTimer, pauseTimer, resetTimer,
addTime, removeTime, syncTimerState, updateCurrentTime and the helper
calculateComputedState), the PubNub bridge policies of
src/store/pubnub-integration.tsx (message-listener recency guard, history
application, publish decision), and the remaining-seconds display arithmetic
of src/timer.tsx.

Conventions of the embedding:
- wall-clock instants and millisecond quantities are Int (JS numbers used as
  integral epoch milliseconds);
- a nullable/undefined-able numeric field is Option Int; the store never
  holds a JS null in pausedRemainingMs (syncTimerState normalizes null to
  undefined), so one Option covers both absent forms;
- JS truthiness of a nullable number (used by the source in conditions such
  as timer.startTime && timer.endTime) is jsTruthy: none and some 0 are
  falsy;
- Date.now() is passed in explicitly as a parameter wherever the source
  calls it.
-/

/-- Canonical timer state, mirroring the TimerState interface of
src/store/index.ts: raw fields plus the two stored computed flags. -/
structure TimerState where
  durationMs : Int
  startTime : Option Int
  endTime : Option Int
  isRunning : Bool
  pausedRemainingMs : Option Int
  lastUpdated : Int
  isComplete : Bool
  isPaused : Bool
deriving DecidableEq, Repr

/-- UI sub-state of AppState in src/store/index.ts. -/
structure UIState where
  isConnected : Bool
  currentTime : Int
  lastUpdateFromPubNub : Bool
deriving DecidableEq, Repr

/-- Whole store state (AppState of src/store/index.ts). -/
structure AppState where
  timer : TimerState
  ui : UIState
deriving DecidableEq, Repr

/-- A wire snapshot as exchanged over the PubNub channel: the six raw fields
published by the bridge; pausedRemainingMs is nullable on the wire. -/
structure Snapshot where
  durationMs : Int
  startTime : Option Int
  endTime : Option Int
  isRunning : Bool
  pausedRemainingMs : Option Int
  lastUpdated : Int
deriving DecidableEq, Repr

/-- JS truthiness of a nullable number: null/undefined and 0 are falsy. -/
def jsTruthy : Option Int → Bool
  | none => false
  | some v => v != 0

/-- Numeric value of a nullable number at the points where the source has
already guarded for presence (0 as the irrelevant default). -/
def optVal : Option Int → Int
  | none => 0
  | some v => v

/-- The helper calculateComputedState of src/store/actions.ts: recompute the
two stored flags from the raw fields and the given current time.
isComplete mirrors the JS expression
Boolean(!isRunning && startTime && endTime && currentTime >= endTime),
isPaused mirrors
!isRunning && pausedRemainingMs !== undefined && pausedRemainingMs !== null. -/
def calculateComputedState (timer : TimerState) (currentTime : Int) : TimerState :=
  { timer with
    isComplete := !timer.isRunning && jsTruthy timer.startTime && jsTruthy timer.endTime
      && decide (optVal timer.endTime ≤ currentTime)
    isPaused := !timer.isRunning && timer.pausedRemainingMs.isSome }

/-- startTimer of src/store/actions.ts. Resumes from pausedRemainingMs if
paused (pausedRemainingMs !== undefined while not running), else from
durationMs; stamps startTime/endTime/lastUpdated with now. -/
def startTimer (s : AppState) (now : Int) : AppState :=
  let timeToRun :=
    if !s.timer.isRunning && s.timer.pausedRemainingMs.isSome then
      optVal s.timer.pausedRemainingMs
    else s.timer.durationMs
  let raw :=
    { s.timer with
      isRunning := true
      startTime := some now
      endTime := some (now + timeToRun)
      pausedRemainingMs := none
      lastUpdated := now }
  { s with timer := calculateComputedState raw s.ui.currentTime }

/-- pauseTimer of src/store/actions.ts: stores max(0, endTime - now) when
running with a truthy endTime, otherwise durationMs; clears the
start/end timestamps. -/
def pauseTimer (s : AppState) (now : Int) : AppState :=
  let remainingMs :=
    if s.timer.isRunning && jsTruthy s.timer.endTime then
      max 0 (optVal s.timer.endTime - now)
    else s.timer.durationMs
  let raw :=
    { s.timer with
      startTime := none
      endTime := none
      isRunning := false
      pausedRemainingMs := some remainingMs
      lastUpdated := now }
  { s with timer := calculateComputedState raw s.ui.currentTime }

/-- resetTimer of src/store/actions.ts: explicit fresh timer record, flags
written directly rather than recomputed. -/
def resetTimer (s : AppState) (initialMinutes : Int) (now : Int) : AppState :=
  { s with timer :=
      { durationMs := initialMinutes * 60 * 1000
        startTime := none
        endTime := none
        isRunning := false
        pausedRemainingMs := none
        lastUpdated := now
        isComplete := false
        isPaused := false } }

/-- addTime of src/store/actions.ts: raises durationMs, then branches on the
mode read from the pre-transition state (running with truthy timestamps,
stored isComplete, paused), stamps lastUpdated and recomputes flags. -/
def addTime (s : AppState) (minutes : Int) (now : Int) : AppState :=
  let additionalMs := minutes * 60 * 1000
  let newDurationMs := s.timer.durationMs + additionalMs
  let base := { s.timer with durationMs := newDurationMs }
  let adjusted :=
    if s.timer.isRunning && jsTruthy s.timer.startTime && jsTruthy s.timer.endTime then
      { base with endTime := some (optVal s.timer.endTime + additionalMs) }
    else if s.timer.isComplete then
      { base with startTime := none, endTime := none, isRunning := false,
                  pausedRemainingMs := none }
    else if s.timer.pausedRemainingMs.isSome then
      { base with pausedRemainingMs := some (optVal s.timer.pausedRemainingMs + additionalMs) }
    else base
  { s with timer := calculateComputedState ({ adjusted with lastUpdated := now }) s.ui.currentTime }

/-- removeTime of src/store/actions.ts: durationMs floored at 60000; while
running the reduction of endTime is clamped so at least 1000 ms remain
past now; a stored paused remainder is floored at 60000. -/
def removeTime (s : AppState) (minutes : Int) (now : Int) : AppState :=
  let reductionMs := minutes * 60 * 1000
  let newDurationMs := max (60 * 1000) (s.timer.durationMs - reductionMs)
  let base := { s.timer with durationMs := newDurationMs }
  let adjusted :=
    if s.timer.isRunning && jsTruthy s.timer.startTime && jsTruthy s.timer.endTime then
      let maxReduction := optVal s.timer.endTime - now - 1000
      let actualReduction := min reductionMs (max 0 maxReduction)
      { base with endTime := some (optVal s.timer.endTime - actualReduction) }
    else if s.timer.isComplete then
      { base with startTime := none, endTime := none, isRunning := false,
                  pausedRemainingMs := none }
    else if s.timer.pausedRemainingMs.isSome then
      { base with pausedRemainingMs := some (max (60 * 1000) (optVal s.timer.pausedRemainingMs - reductionMs)) }
    else base
  { s with timer := calculateComputedState ({ adjusted with lastUpdated := now }) s.ui.currentTime }

/-- syncTimerState of src/store/actions.ts: wholesale replacement of the raw
fields by the snapshot (null pausedRemainingMs normalized to undefined,
one Option here), with the flags recomputed against ui.currentTime. Note
that the snapshot isRunning is applied verbatim. -/
def syncTimerState (s : AppState) (snap : Snapshot) : AppState :=
  let raw : TimerState :=
    { durationMs := snap.durationMs
      startTime := snap.startTime
      endTime := snap.endTime
      isRunning := snap.isRunning
      pausedRemainingMs := snap.pausedRemainingMs
      lastUpdated := snap.lastUpdated
      isComplete := false
      isPaused := false }
  { s with timer := calculateComputedState raw s.ui.currentTime }

/-- updateCurrentTime of src/store/actions.ts: auto-stop a running timer
whose endTime has been reached; otherwise keep the stored timer record
untouched unless the recomputed flags differ. ui.currentTime always
advances to the given instant. -/
def updateCurrentTime (s : AppState) (currentTime : Int) : AppState :=
  if s.timer.isRunning && jsTruthy s.timer.endTime
      && decide (optVal s.timer.endTime ≤ currentTime) then
    { timer := calculateComputedState
        ({ s.timer with isRunning := false, lastUpdated := currentTime }) currentTime
      ui := { s.ui with currentTime := currentTime } }
  else
    let computed := calculateComputedState s.timer currentTime
    if computed.isComplete != s.timer.isComplete || computed.isPaused != s.timer.isPaused then
      { timer := computed, ui := { s.ui with currentTime := currentTime } }
    else
      { timer := s.timer, ui := { s.ui with currentTime := currentTime } }

/-- The message listener of src/store/pubnub-integration.tsx: an inbound
snapshot is applied through syncTimerState only when its lastUpdated is
strictly greater than the current one. -/
def messageStep (s : AppState) (snap : Snapshot) : AppState :=
  if s.timer.lastUpdated < snap.lastUpdated then syncTimerState s snap else s

/-- The history fetch of src/store/pubnub-integration.tsx: the most recent
stored snapshot is fed to syncTimerState unconditionally, with no
recency guard. -/
def historyStep (s : AppState) (snap : Snapshot) : AppState :=
  syncTimerState s snap

/-- The snapshot the publish effect of src/store/pubnub-integration.tsx
builds from the store timer (pausedRemainingMs ?? null becomes the same
Option none here). -/
def toPublish (t : TimerState) : Snapshot :=
  { durationMs := t.durationMs
    startTime := t.startTime
    endTime := t.endTime
    isRunning := t.isRunning
    pausedRemainingMs := t.pausedRemainingMs
    lastUpdated := t.lastUpdated }

/-- The JS strict comparison of the stored (null-sentinel) published
pausedRemainingMs against the in-memory (undefined-able) one: since
null !== undefined, two absent values compare as different. -/
def pausedFieldDiffers : Option Int → Option Int → Bool
  | some a, some b => a != b
  | _, _ => true

/-- The stateChanged test of the publish effect: publish when nothing was
published yet or any raw field differs from the last published value. -/
def stateChanged (lastPublished : Option Snapshot) (t : TimerState) : Bool :=
  match lastPublished with
  | none => true
  | some p =>
      decide (p.durationMs ≠ t.durationMs) || decide (p.startTime ≠ t.startTime)
        || decide (p.endTime ≠ t.endTime) || decide (p.isRunning ≠ t.isRunning)
        || pausedFieldDiffers p.pausedRemainingMs t.pausedRemainingMs

/-- The publish decision of the publish effect of
src/store/pubnub-integration.tsx: requires a client handle, connection,
initialization and loaded history; skips when ui.lastUpdateFromPubNub is
set; otherwise publishes iff stateChanged. -/
def shouldPublish (hasClient isConnected isInitialized hasLoadedHistory : Bool)
    (lastUpdateFromPubNub : Bool) (lastPublished : Option Snapshot)
    (t : TimerState) : Bool :=
  if !hasClient || !isConnected || !isInitialized || !hasLoadedHistory then false
  else if lastUpdateFromPubNub then false
  else stateChanged lastPublished t

/-- One store event: the seven transitions named by the reachability claim,
with every Date.now() occurrence an explicit argument. -/
inductive TimerAction where
  | start (now : Int)
  | pause (now : Int)
  | reset (initialMinutes : Int) (now : Int)
  | add (minutes : Int) (now : Int)
  | remove (minutes : Int) (now : Int)
  | sync (snap : Snapshot)
  | tick (currentTime : Int)
deriving DecidableEq, Repr

/-- Dispatch one action to its transition function. -/
def applyAction (s : AppState) : TimerAction → AppState
  | .start now => startTimer s now
  | .pause now => pauseTimer s now
  | .reset m now => resetTimer s m now
  | .add m now => addTime s m now
  | .remove m now => removeTime s m now
  | .sync snap => syncTimerState s snap
  | .tick t => updateCurrentTime s t

/-- Run a sequence of actions from a state. -/
def applyActions (s : AppState) (acts : List TimerAction) : AppState :=
  acts.foldl applyAction s

/-- The initial AppState of src/store/index.ts, with the process start time
(the Date.now() of module initialization) as a parameter. -/
def initialState (t0 : Int) : AppState :=
  { timer :=
      { durationMs := 5 * 60 * 1000
        startTime := none
        endTime := none
        isRunning := false
        pausedRemainingMs := none
        lastUpdated := t0
        isComplete := false
        isPaused := false }
    ui := { isConnected := false, currentTime := t0, lastUpdateFromPubNub := false } }

/-- remainingSeconds of src/timer.tsx:
remainingMs <= 0 ? 0 : Math.max(1, Math.ceil(remainingMs / 1000)). -/
def remainingSeconds (remainingMs : Int) : Int :=
  if remainingMs ≤ 0 then 0 else max 1 ⌈(remainingMs : ℚ) / 1000⌉

/-- C6: the displayed remaining seconds (remainingSeconds of src/timer.tsx)
equal 0 when remainingMs is nonpositive and max(1, ceil(remainingMs/1000))
when remainingMs is positive; in particular 60000, 59999, 1000, 999, 1 and
0 ms display as 60, 60, 1, 1, 1 and 0 seconds. -/
theorem c6_remainingSeconds_ceiling :
    remainingSeconds 60000 = 60 ∧ remainingSeconds 59999 = 60 ∧
    remainingSeconds 1000 = 1 ∧ remainingSeconds 999 = 1 ∧
    remainingSeconds 1 = 1 ∧ remainingSeconds 0 = 0 ∧
    (∀ ms : Int, ms ≤ 0 → remainingSeconds ms = 0) ∧
    (∀ ms : Int, 0 < ms → remainingSeconds ms = max 1 ⌈(ms : ℚ) / 1000⌉) := by
  refine ⟨?_, ?_, ?_, ?_, ?_, ?_, ?_, ?_⟩
  · simp only [remainingSeconds]; norm_num
  · simp only [remainingSeconds]; norm_num; rw [Int.ceil_eq_iff]; norm_num
  · simp only [remainingSeconds]; norm_num
  · simp only [remainingSeconds]; norm_num; rw [Int.ceil_eq_iff]; norm_num
  · simp only [remainingSeconds]; norm_num; rw [Int.ceil_eq_iff]; norm_num
  · simp [remainingSeconds]
  · intro ms h; simp only [remainingSeconds, if_pos h]
  · intro ms h; simp only [remainingSeconds, if_neg (not_le.mpr h)]

/-- C6 witness: the two guarded clauses of the display law instantiated at
the concrete inputs -5 and 999. -/
theorem c6_remainingSeconds_ceiling_witness :
    ((-5 : Int) ≤ 0 ∧ remainingSeconds (-5) = 0) ∧
    ((0 : Int) < 999 ∧ remainingSeconds 999 = max 1 ⌈((999 : Int) : ℚ) / 1000⌉) :=
  ⟨⟨by decide, c6_remainingSeconds_ceiling.2.2.2.2.2.2.1 (-5) (by decide)⟩,
   ⟨by decide, c6_remainingSeconds_ceiling.2.2.2.2.2.2.2 999 (by decide)⟩⟩

/-- C1 counterexample: the spec scenario itself refutes the claim on the
store code. An idle local client at current time 10000 accepts the newer
snapshot (isRunning true, endTime 5000 already past, lastUpdated 10001),
and the state produced by the sync transition still has isRunning true
and isComplete false: no expire-equivalent correction is folded in. -/
theorem c1_sync_expiry_counterexample :
    (initialState 10000).timer.lastUpdated < (10001 : Int) ∧
    (5000 : Int) ≤ (initialState 10000).ui.currentTime ∧
    (messageStep (initialState 10000)
      ⟨300000, some 1000, some 5000, true, none, 10001⟩).timer.isRunning = true ∧
    (messageStep (initialState 10000)
      ⟨300000, some 1000, some 5000, true, none, 10001⟩).timer.isComplete = false := by
  decide

/-- C1 amended: syncTimerState applies the snapshot isRunning verbatim, so a
newer snapshot that is running past its endTime leaves the store in a
running state; the expire-equivalent correction instead happens at the
next updateCurrentTime tick, which turns the state into isRunning false
and isComplete true. -/
theorem c1_sync_expiry_amended (s : AppState) (snap : Snapshot) (now st e : Int)
    (hnew : s.timer.lastUpdated < snap.lastUpdated)
    (hrun : snap.isRunning = true)
    (hstv : snap.startTime = some st) (hstne : st ≠ 0)
    (he : snap.endTime = some e) (hne : e ≠ 0) (hpast : e ≤ now) :
    (messageStep s snap).timer.isRunning = true ∧
    (updateCurrentTime (messageStep s snap) now).timer.isRunning = false ∧
    (updateCurrentTime (messageStep s snap) now).timer.isComplete = true := by
  simp only [messageStep, if_pos hnew]
  refine ⟨by simp [syncTimerState, calculateComputedState, hrun], ?_, ?_⟩ <;>
    simp [updateCurrentTime, syncTimerState, calculateComputedState, optVal,
      jsTruthy, hrun, hstv, hstne, he, hne, hpast]

/-- C1 amended witness: the amended behaviour at the concrete scenario of
the counterexample (tick taken at the local current time 10000). -/
theorem c1_sync_expiry_amended_witness :
    ((initialState 10000).timer.lastUpdated < (10001 : Int) ∧
      (⟨300000, some 1000, some 5000, true, none, 10001⟩ : Snapshot).isRunning = true ∧
      (⟨300000, some 1000, some 5000, true, none, 10001⟩ : Snapshot).startTime = some 1000 ∧
      (1000 : Int) ≠ 0 ∧
      (⟨300000, some 1000, some 5000, true, none, 10001⟩ : Snapshot).endTime = some 5000 ∧
      (5000 : Int) ≠ 0 ∧ (5000 : Int) ≤ 10000) ∧
    (messageStep (initialState 10000)
      ⟨300000, some 1000, some 5000, true, none, 10001⟩).timer.isRunning = true ∧
    (updateCurrentTime (messageStep (initialState 10000)
      ⟨300000, some 1000, some 5000, true, none, 10001⟩) 10000).timer.isRunning = false ∧
    (updateCurrentTime (messageStep (initialState 10000)
      ⟨300000, some 1000, some 5000, true, none, 10001⟩) 10000).timer.isComplete = true :=
  ⟨⟨by decide, by decide, by decide, by decide, by decide, by decide, by decide⟩,
    c1_sync_expiry_amended (initialState 10000)
      ⟨300000, some 1000, some 5000, true, none, 10001⟩ 10000 1000 5000
      (by decide) (by decide) (by decide) (by decide) (by decide) (by decide) (by decide)⟩

/-- C2 counterexample: the history-retrieval path applies its snapshot with
no recency guard. A local state with lastUpdated 100 receives a history
snapshot with lastUpdated 50 — not strictly greater — and the store is
changed anyway (durationMs drops from 300000 to 120000 and lastUpdated
moves backwards to 50), refuting the claim that a snapshot is applied
only when its lastUpdated is strictly greater. -/
theorem c2_recency_counterexample :
    ¬ ((initialState 100).timer.lastUpdated < (50 : Int)) ∧
    (initialState 100).timer.durationMs = 300000 ∧
    (historyStep (initialState 100)
      ⟨120000, none, none, false, none, 50⟩).timer.durationMs = 120000 ∧
    (historyStep (initialState 100)
      ⟨120000, none, none, false, none, 50⟩).timer.lastUpdated = 50 := by
  decide

/-- C2 amended: on the message-listener path the claim holds: a snapshot
whose lastUpdated is not strictly greater than the store value is
ignored outright, and re-delivering an accepted snapshot through the
listener is a no-op, every field included; the unconditional application
is confined to the history-retrieval path. -/
theorem c2_recency_amended (s : AppState) (snap : Snapshot) :
    (¬ s.timer.lastUpdated < snap.lastUpdated → messageStep s snap = s) ∧
    (s.timer.lastUpdated < snap.lastUpdated →
      messageStep (messageStep s snap) snap = messageStep s snap) := by
  constructor
  · intro h
    simp only [messageStep, if_neg h]
  · intro h
    have h1 : messageStep s snap = syncTimerState s snap := if_pos h
    have h2 : (syncTimerState s snap).timer.lastUpdated = snap.lastUpdated := by
      simp [syncTimerState, calculateComputedState]
    rw [h1, messageStep, h2, if_neg (lt_irrefl snap.lastUpdated)]

/-- C2 amended witness: both clauses at concrete inputs: a snapshot with
lastUpdated 50 is ignored by the listener of a store at 100, and a
snapshot with lastUpdated 200 applied twice equals one application. -/
theorem c2_recency_amended_witness :
    (¬ (initialState 100).timer.lastUpdated < (50 : Int) ∧
      messageStep (initialState 100) ⟨120000, none, none, false, none, 50⟩ =
        initialState 100) ∧
    ((initialState 100).timer.lastUpdated < (200 : Int) ∧
      messageStep (messageStep (initialState 100)
          ⟨120000, none, none, false, none, 200⟩)
          ⟨120000, none, none, false, none, 200⟩ =
        messageStep (initialState 100) ⟨120000, none, none, false, none, 200⟩) :=
  ⟨⟨by decide,
    (c2_recency_amended (initialState 100) ⟨120000, none, none, false, none, 50⟩).1
      (by decide)⟩,
   ⟨by decide,
    (c2_recency_amended (initialState 100) ⟨120000, none, none, false, none, 200⟩).2
      (by decide)⟩⟩

/-- C3: the anti-echo tag is dead code, so an accepted inbound snapshot IS
republished. No transition ever sets ui.lastUpdateFromPubNub (every
action preserves it and it starts false), so the publish-effect guard
that reads it never fires; concretely, after the listener accepts the
snapshot with lastUpdated 200 into a store whose last published state is
empty, the publish decision is true and the snapshot it would publish is
exactly the snapshot just received. -/
theorem c3_echo_code_bug :
    (∀ (s : AppState) (a : TimerAction),
      (applyAction s a).ui.lastUpdateFromPubNub = s.ui.lastUpdateFromPubNub) ∧
    (∀ t0 : Int, (initialState t0).ui.lastUpdateFromPubNub = false) ∧
    (initialState 100).timer.lastUpdated < (200 : Int) ∧
    (messageStep (initialState 100)
      ⟨120000, some 1, some 400000, true, none, 200⟩).ui.lastUpdateFromPubNub = false ∧
    shouldPublish true true true true
      (messageStep (initialState 100)
        ⟨120000, some 1, some 400000, true, none, 200⟩).ui.lastUpdateFromPubNub
      none
      (messageStep (initialState 100)
        ⟨120000, some 1, some 400000, true, none, 200⟩).timer = true ∧
    toPublish (messageStep (initialState 100)
        ⟨120000, some 1, some 400000, true, none, 200⟩).timer =
      ⟨120000, some 1, some 400000, true, none, 200⟩ := by
  refine ⟨?_, ?_, by decide, by decide, by decide, by decide⟩
  · intro s a
    cases a with
    | start now => rfl
    | pause now => rfl
    | reset m now => rfl
    | add m now => rfl
    | remove m now => rfl
    | sync snap => rfl
    | tick t =>
        simp only [applyAction, updateCurrentTime]
        split
        · rfl
        · split <;> rfl
  · intro t0
    rfl

/-- Flag discipline: a paused flag forces not-running and a complete flag
forces not-running. -/
def flagsOK (t : TimerState) : Prop :=
  (t.isPaused = true → t.isRunning = false) ∧
  (t.isComplete = true → t.isRunning = false)

/-- Every output of calculateComputedState satisfies the flag discipline,
since both recomputed flags are conjunctions starting with the negation
of the (unchanged) isRunning field. -/
theorem flagsOK_calc (t : TimerState) (c : Int) :
    flagsOK (calculateComputedState t c) := by
  constructor
  · intro h
    simp only [calculateComputedState, Bool.and_eq_true, Bool.not_eq_true'] at h
    exact h.1
  · intro h
    simp only [calculateComputedState, Bool.and_eq_true, Bool.not_eq_true'] at h
    exact h.1.1.1

/-- Each of the seven transitions preserves the flag discipline: all of them
either end in calculateComputedState, write the flags false explicitly
(reset), or return the stored timer unchanged (the no-change arm of
updateCurrentTime). -/
theorem flagsOK_step (s : AppState) (a : TimerAction) (h : flagsOK s.timer) :
    flagsOK (applyAction s a).timer := by
  cases a with
  | start now => exact flagsOK_calc _ _
  | pause now => exact flagsOK_calc _ _
  | reset m now => exact ⟨fun h1 => by simp [applyAction, resetTimer] at h1, fun _ => rfl⟩
  | add m now => exact flagsOK_calc _ _
  | remove m now => exact flagsOK_calc _ _
  | sync snap => exact flagsOK_calc _ _
  | tick t =>
      simp only [applyAction, updateCurrentTime]
      split
      · exact flagsOK_calc _ _
      · split
        · exact flagsOK_calc _ _
        · exact h

/-- The flag discipline is preserved along any action sequence. -/
theorem flagsOK_run (acts : List TimerAction) :
    ∀ s : AppState, flagsOK s.timer → flagsOK (applyActions s acts).timer := by
  induction acts with
  | nil => exact fun s h => h
  | cons a rest ih => exact fun s h => ih _ (flagsOK_step s a h)

/-- C4: in every state reachable from the initial state by startTimer,
pauseTimer, resetTimer, addTime, removeTime, syncTimerState and
updateCurrentTime, at most one of isRunning and isPaused is true, and
isComplete is true only when isRunning is false. -/
theorem c4_mutual_exclusion (t0 : Int) (acts : List TimerAction) :
    ((applyActions (initialState t0) acts).timer.isPaused = true →
      (applyActions (initialState t0) acts).timer.isRunning = false) ∧
    ((applyActions (initialState t0) acts).timer.isComplete = true →
      (applyActions (initialState t0) acts).timer.isRunning = false) :=
  flagsOK_run acts (initialState t0)
    ⟨fun h => by simp [initialState] at h, fun h => by simp [initialState] at h⟩

/-- C4 witness: the two clauses exercised on concrete reachable states: a
paused state (pause from the initial state) and a completed state (start
at 5, tick past the end time). -/
theorem c4_mutual_exclusion_witness :
    ((applyActions (initialState 0) [TimerAction.pause 0]).timer.isPaused = true ∧
      (applyActions (initialState 0) [TimerAction.pause 0]).timer.isRunning = false) ∧
    ((applyActions (initialState 0)
        [TimerAction.start 5, TimerAction.tick 400000]).timer.isComplete = true ∧
      (applyActions (initialState 0)
        [TimerAction.start 5, TimerAction.tick 400000]).timer.isRunning = false) :=
  ⟨⟨by decide, (c4_mutual_exclusion 0 [TimerAction.pause 0]).1 (by decide)⟩,
   ⟨by decide,
    (c4_mutual_exclusion 0 [TimerAction.start 5, TimerAction.tick 400000]).2 (by decide)⟩⟩

/-- C5 counterexample: updateCurrentTime does not clear pausedRemainingMs.
A running state with a stored paused remainder (reachable via
syncTimerState, which copies any snapshot verbatim) is auto-stopped by
the tick at 2000, yet pausedRemainingMs is still some 60000 afterwards,
refuting the clause that the expire transition clears it. -/
theorem c5_expire_counterexample :
    (syncTimerState (initialState 0)
      ⟨300000, some 1, some 1000, true, some 60000, 5⟩).timer.isRunning = true ∧
    (updateCurrentTime (syncTimerState (initialState 0)
      ⟨300000, some 1, some 1000, true, some 60000, 5⟩) 2000).timer.isRunning = false ∧
    (updateCurrentTime (syncTimerState (initialState 0)
      ⟨300000, some 1, some 1000, true, some 60000, 5⟩) 2000).timer.pausedRemainingMs
      = some 60000 := by
  decide

/-- C5 amended: on a running state whose truthy endTime has been reached,
updateCurrentTime sets isRunning to false, stamps lastUpdated with the
tick instant, leaves startTime, endTime, durationMs and
pausedRemainingMs unchanged (it does not clear the latter), and the
recomputed isComplete is true whenever startTime is truthy. -/
theorem c5_expire_amended (s : AppState) (now e : Int)
    (hrun : s.timer.isRunning = true)
    (he : s.timer.endTime = some e) (hne : e ≠ 0) (hpast : e ≤ now) :
    (updateCurrentTime s now).timer.isRunning = false ∧
    (updateCurrentTime s now).timer.startTime = s.timer.startTime ∧
    (updateCurrentTime s now).timer.endTime = s.timer.endTime ∧
    (updateCurrentTime s now).timer.durationMs = s.timer.durationMs ∧
    (updateCurrentTime s now).timer.pausedRemainingMs = s.timer.pausedRemainingMs ∧
    (updateCurrentTime s now).timer.lastUpdated = now ∧
    (∀ st : Int, s.timer.startTime = some st → st ≠ 0 →
      (updateCurrentTime s now).timer.isComplete = true) := by
  have hcond : (s.timer.isRunning && jsTruthy s.timer.endTime
      && decide (optVal s.timer.endTime ≤ now)) = true := by
    simp [hrun, he, jsTruthy, optVal, hne, hpast]
  unfold updateCurrentTime
  rw [if_pos hcond]
  refine ⟨rfl, rfl, rfl, rfl, rfl, rfl, ?_⟩
  intro st hst hstne
  simp [calculateComputedState, jsTruthy, optVal, hst, hstne, he, hne, hpast]

/-- C5 amended witness: the amended statement at the concrete state of the
counterexample. -/
theorem c5_expire_amended_witness :
    ((syncTimerState (initialState 0)
        ⟨300000, some 1, some 1000, true, some 60000, 5⟩).timer.isRunning = true ∧
      (syncTimerState (initialState 0)
        ⟨300000, some 1, some 1000, true, some 60000, 5⟩).timer.endTime = some 1000 ∧
      (1000 : Int) ≠ 0 ∧ (1000 : Int) ≤ 2000) ∧
    (updateCurrentTime (syncTimerState (initialState 0)
      ⟨300000, some 1, some 1000, true, some 60000, 5⟩) 2000).timer.pausedRemainingMs
      = (syncTimerState (initialState 0)
        ⟨300000, some 1, some 1000, true, some 60000, 5⟩).timer.pausedRemainingMs ∧
    (updateCurrentTime (syncTimerState (initialState 0)
      ⟨300000, some 1, some 1000, true, some 60000, 5⟩) 2000).timer.isComplete = true :=
  ⟨⟨by decide, by decide, by decide, by decide⟩,
   (c5_expire_amended (syncTimerState (initialState 0)
      ⟨300000, some 1, some 1000, true, some 60000, 5⟩) 2000 1000
      (by decide) (by decide) (by decide) (by decide)).2.2.2.2.1,
   (c5_expire_amended (syncTimerState (initialState 0)
      ⟨300000, some 1, some 1000, true, some 60000, 5⟩) 2000 1000
      (by decide) (by decide) (by decide) (by decide)).2.2.2.2.2.2 1
      (by decide) (by decide)⟩

/-- removeTime always sets durationMs to the floored value
max(60000, durationMs - minutes*60000), whichever mode branch is taken. -/
theorem removeTime_durationMs (s : AppState) (minutes now : Int) :
    (removeTime s minutes now).timer.durationMs =
      max (60 * 1000) (s.timer.durationMs - minutes * 60 * 1000) := by
  unfold removeTime calculateComputedState
  dsimp only
  split
  · rfl
  · split
    · rfl
    · split
      · rfl
      · rfl

/-- C7: removeTime never drops durationMs below 60000, and on a running
timer (truthy startTime and endTime) whose endTime is at least 1 second
in the future, the reduced endTime is clamped to no less than 1 second
after the current time, so the remaining time cannot become zero or
negative. -/
theorem c7_removeTime_clamps (s : AppState) (minutes now : Int) (hm : 0 < minutes) :
    (60000 : Int) ≤ (removeTime s minutes now).timer.durationMs ∧
    (∀ st e : Int, s.timer.isRunning = true → s.timer.startTime = some st → st ≠ 0 →
      s.timer.endTime = some e → e ≠ 0 → now + 1000 ≤ e →
      (removeTime s minutes now).timer.endTime =
        some (e - min (minutes * 60 * 1000) (max 0 (e - now - 1000))) ∧
      now + 1000 ≤ e - min (minutes * 60 * 1000) (max 0 (e - now - 1000))) := by
  constructor
  · rw [removeTime_durationMs]
    exact le_max_left _ _
  · intro st e hrun hstv hstne hev hene hfut
    refine ⟨?_, by omega⟩
    simp [removeTime, calculateComputedState, optVal, jsTruthy, hrun, hstv, hstne, hev, hene]

/-- C7 witness: a 5-minute removal from a freshly started 5-minute timer at
instant 6 clamps endTime to 1006 = now + 1000 and floors durationMs at
60000. -/
theorem c7_removeTime_clamps_witness :
    ((0 : Int) < 5 ∧
      (startTimer (initialState 0) 5).timer.isRunning = true ∧
      (startTimer (initialState 0) 5).timer.startTime = some 5 ∧ (5 : Int) ≠ 0 ∧
      (startTimer (initialState 0) 5).timer.endTime = some 300005 ∧
      (300005 : Int) ≠ 0 ∧ (6 : Int) + 1000 ≤ 300005) ∧
    (60000 : Int) ≤ (removeTime (startTimer (initialState 0) 5) 5 6).timer.durationMs ∧
    (removeTime (startTimer (initialState 0) 5) 5 6).timer.endTime =
      some (300005 - min (5 * 60 * 1000) (max 0 (300005 - 6 - 1000))) ∧
    (6 : Int) + 1000 ≤ 300005 - min (5 * 60 * 1000) (max 0 (300005 - 6 - 1000)) :=
  ⟨⟨by decide, by decide, by decide, by decide, by decide, by decide, by decide⟩,
   (c7_removeTime_clamps (startTimer (initialState 0) 5) 5 6 (by decide)).1,
   ((c7_removeTime_clamps (startTimer (initialState 0) 5) 5 6 (by decide)).2 5 300005
     (by decide) (by decide) (by decide) (by decide) (by decide) (by decide)).1,
   ((c7_removeTime_clamps (startTimer (initialState 0) 5) 5 6 (by decide)).2 5 300005
     (by decide) (by decide) (by decide) (by decide) (by decide) (by decide)).2⟩

/-- C8 counterexample: a reachable paused state whose pausedRemainingMs is 0,
far below the claimed 60000 floor: start the 5-minute timer at instant 5
and pause at instant 400000, after the end time has passed with no tick
in between; pauseTimer stores max(0, 300005 - 400000) = 0. -/
theorem c8_paused_floor_counterexample :
    (applyActions (initialState 0)
      [TimerAction.start 5, TimerAction.pause 400000]).timer.pausedRemainingMs
      = some 0 ∧
    (applyActions (initialState 0)
      [TimerAction.start 5, TimerAction.pause 400000]).timer.isPaused = true ∧
    (0 : Int) < 60000 := by
  decide

/-- C8 amended: pauseTimer on a running timer with a truthy endTime stores
exactly max(0, endTime - now) — the remaining time at the moment of
pausing, which is at least 0 but not floored at 60000 — while the 60000
floor does hold for removeTime adjusting an existing paused remainder
(not running, not complete). -/
theorem c8_paused_floor_amended (s : AppState) (now e m p : Int) :
    (s.timer.isRunning = true → s.timer.endTime = some e → e ≠ 0 →
      (pauseTimer s now).timer.pausedRemainingMs = some (max 0 (e - now)) ∧
      (0 : Int) ≤ max 0 (e - now)) ∧
    (s.timer.isRunning = false → s.timer.isComplete = false →
      s.timer.pausedRemainingMs = some p →
      (removeTime s m now).timer.pausedRemainingMs =
        some (max (60 * 1000) (p - m * 60 * 1000)) ∧
      (60000 : Int) ≤ max (60 * 1000) (p - m * 60 * 1000)) := by
  constructor
  · intro hrun he hne
    refine ⟨?_, le_max_left _ _⟩
    simp [pauseTimer, calculateComputedState, jsTruthy, optVal, hrun, he, hne]
  · intro hrun hcomp hp
    refine ⟨?_, le_max_left _ _⟩
    simp [removeTime, calculateComputedState, optVal, hrun, hcomp, hp]

/-- C8 amended witness: both clauses at concrete states: pausing the freshly
started timer at instant 100 stores max(0, 300005 - 100), and removing
10 minutes from the resulting paused state floors the remainder at
60000. -/
theorem c8_paused_floor_amended_witness :
    ((startTimer (initialState 0) 5).timer.isRunning = true ∧
      (startTimer (initialState 0) 5).timer.endTime = some 300005 ∧
      (300005 : Int) ≠ 0 ∧
      (pauseTimer (startTimer (initialState 0) 5) 100).timer.pausedRemainingMs
        = some (max 0 (300005 - 100))) ∧
    ((pauseTimer (startTimer (initialState 0) 5) 100).timer.isRunning = false ∧
      (pauseTimer (startTimer (initialState 0) 5) 100).timer.isComplete = false ∧
      (pauseTimer (startTimer (initialState 0) 5) 100).timer.pausedRemainingMs
        = some 299905 ∧
      (removeTime (pauseTimer (startTimer (initialState 0) 5) 100) 10 200).timer.pausedRemainingMs
        = some (max (60 * 1000) (299905 - 10 * 60 * 1000))) :=
  ⟨⟨by decide, by decide, by decide,
    ((c8_paused_floor_amended (startTimer (initialState 0) 5) 100 300005 10 299905).1
      (by decide) (by decide) (by decide)).1⟩,
   ⟨by decide, by decide, by decide,
    ((c8_paused_floor_amended (pauseTimer (startTimer (initialState 0) 5) 100) 200 300005 10
        299905).2 (by decide) (by decide) (by decide)).1⟩⟩

/-- C9: pausing a running timer (truthy endTime) at t1 and starting again at
a later instant t2 resumes from the stored paused remainder: the new
endTime is t2 + max(0, endTime - t1), the remaining time captured at the
pause — not t2 plus the full duration — startTime is restamped to t2,
pausedRemainingMs is cleared and the timer is running again. -/
theorem c9_pause_resume (s : AppState) (t1 t2 e : Int)
    (hrun : s.timer.isRunning = true)
    (he : s.timer.endTime = some e) (hne : e ≠ 0) (hord : t1 ≤ t2) :
    (startTimer (pauseTimer s t1) t2).timer.endTime = some (t2 + max 0 (e - t1)) ∧
    (startTimer (pauseTimer s t1) t2).timer.startTime = some t2 ∧
    (startTimer (pauseTimer s t1) t2).timer.pausedRemainingMs = none ∧
    (startTimer (pauseTimer s t1) t2).timer.isRunning = true := by
  simp [startTimer, pauseTimer, calculateComputedState, jsTruthy, optVal, hrun, he, hne]

/-- C9 witness: start at 5, pause at 100, resume at 200: the resumed endTime
is 200 + max(0, 300005 - 100). -/
theorem c9_pause_resume_witness :
    ((startTimer (initialState 0) 5).timer.isRunning = true ∧
      (startTimer (initialState 0) 5).timer.endTime = some 300005 ∧
      (300005 : Int) ≠ 0 ∧ (100 : Int) ≤ 200) ∧
    (startTimer (pauseTimer (startTimer (initialState 0) 5) 100) 200).timer.endTime
      = some (200 + max 0 (300005 - 100)) ∧
    (startTimer (pauseTimer (startTimer (initialState 0) 5) 100) 200).timer.pausedRemainingMs
      = none :=
  ⟨⟨by decide, by decide, by decide, by decide⟩,
   (c9_pause_resume (startTimer (initialState 0) 5) 100 200 300005
     (by decide) (by decide) (by decide) (by decide)).1,
   (c9_pause_resume (startTimer (initialState 0) 5) 100 200 300005
     (by decide) (by decide) (by decide) (by decide)).2.2.1⟩

/-- C10: when the auto-stop condition does not hold and the recomputed flags
match the stored ones, updateCurrentTime returns the stored timer record
itself — every timer field, lastUpdated included — and only
ui.currentTime changes. -/
theorem c10_tick_frame (s : AppState) (now : Int)
    (hstop : (s.timer.isRunning && jsTruthy s.timer.endTime
      && decide (optVal s.timer.endTime ≤ now)) = false)
    (hc : (calculateComputedState s.timer now).isComplete = s.timer.isComplete)
    (hp : (calculateComputedState s.timer now).isPaused = s.timer.isPaused) :
    (updateCurrentTime s now).timer = s.timer ∧
    (updateCurrentTime s now).ui = { s.ui with currentTime := now } := by
  unfold updateCurrentTime
  rw [if_neg (by simp [hstop])]
  simp [hc, hp]

/-- C10 witness: an idle store ticked at 50 keeps its timer record whole and
only moves ui.currentTime. -/
theorem c10_tick_frame_witness :
    (((initialState 0).timer.isRunning && jsTruthy (initialState 0).timer.endTime
        && decide (optVal (initialState 0).timer.endTime ≤ 50)) = false ∧
      (calculateComputedState (initialState 0).timer 50).isComplete
        = (initialState 0).timer.isComplete ∧
      (calculateComputedState (initialState 0).timer 50).isPaused
        = (initialState 0).timer.isPaused) ∧
    (updateCurrentTime (initialState 0) 50).timer = (initialState 0).timer ∧
    (updateCurrentTime (initialState 0) 50).ui
      = { (initialState 0).ui with currentTime := 50 } :=
  ⟨⟨by decide, by decide, by decide⟩,
   (c10_tick_frame (initialState 0) 50 (by decide) (by decide) (by decide)).1,
   (c10_tick_frame (initialState 0) 50 (by decide) (by decide) (by decide)).2⟩
